import Mathlib

/-!
Verification of the parametric metal-frame geometry shared by the scripts
`metal_frame_generator.py`, `metal_frame_step_generator.py`, `visualize_frame.py`
and `create_rotating_gif.py`.  Floating-point arithmetic is embedded as exact
real arithmetic; `ezdxf.math.Vec3`, `FreeCAD.Vector` and numpy length-3 arrays
all become `Point3` below.
-/

noncomputable section

namespace MetalFrame

/-- Three-dimensional point/vector with real coordinates. -/
@[ext]
structure Point3 where
  x : ℝ
  y : ℝ
  z : ℝ

instance : Add Point3 := ⟨fun a b => ⟨a.x + b.x, a.y + b.y, a.z + b.z⟩⟩

instance : Sub Point3 := ⟨fun a b => ⟨a.x - b.x, a.y - b.y, a.z - b.z⟩⟩

instance : Neg Point3 := ⟨fun a => ⟨-a.x, -a.y, -a.z⟩⟩

instance : SMul ℝ Point3 := ⟨fun c a => ⟨c * a.x, c * a.y, c * a.z⟩⟩

instance : Zero Point3 := ⟨⟨0, 0, 0⟩⟩

/-- Dot product of two vectors. -/
def dot (a b : Point3) : ℝ := a.x * b.x + a.y * b.y + a.z * b.z

/-- Cross product (`Vec3.cross`, `np.cross`, `Vector.cross`). -/
def cross (a b : Point3) : Point3 :=
  ⟨a.y * b.z - a.z * b.y, a.z * b.x - a.x * b.z, a.x * b.y - a.y * b.x⟩

/-- Squared Euclidean magnitude. -/
def normSq (a : Point3) : ℝ := dot a a

/-- Euclidean magnitude (`Vec3.magnitude`, `np.linalg.norm`, `Vector.Length`). -/
def magnitude (a : Point3) : ℝ := Real.sqrt (normSq a)

/-- Euclidean distance between two points. -/
def dist3 (a b : Point3) : ℝ := magnitude (a - b)

/-- Normalization `v / |v|` (`Vec3.normalize`, `direction / length`). -/
def normalize (v : Point3) : Point3 := (1 / magnitude v) • v

/-- First cross-section perpendicular, as computed by `create_tube_solid` /
`draw_cylinder` / `create_tube_3d`: if `|d.z| < 0.99` take the normalized
`(-d.y, d.x, 0)`, otherwise the constant `(1, 0, 0)`. -/
def perp1 (d : Point3) : Point3 :=
  if |d.z| < 0.99 then normalize ⟨-d.y, d.x, 0⟩ else ⟨1, 0, 0⟩

/-- Second cross-section perpendicular: `direction.cross(perp1).normalize()`. -/
def perp2 (d : Point3) : Point3 := normalize (cross d (perp1 d))

/-- One sampled point of a circular cross-section:
`center + radius * (cos θ * perp1 + sin θ * perp2)`. -/
def circlePoint (center : Point3) (r : ℝ) (p1 p2 : Point3) (θ : ℝ) : Point3 :=
  center + r • (Real.cos θ • p1 + Real.sin θ • p2)

/-- Ring of `n` cross-section points, angles `2·π·i/n` for `i in range(n)`. -/
def ringPoints (center : Point3) (r : ℝ) (p1 p2 : Point3) (n : ℕ) : List Point3 :=
  (List.range n).map fun i : ℕ =>
    circlePoint center r p1 p2 (2 * Real.pi * (i : ℝ) / (n : ℝ))

/-- Derived tube mesh data: the two rings of cross-section points. -/
structure TubeMesh where
  startRing : List Point3
  endRing : List Point3

/-- Ring construction of `create_closed_tube_mesh` / `draw_cylinder` (the
spec's `buildTubeMesh`): both rings use the cross-section frame of the
normalized direction `d = normalize (end - start)`. -/
def buildTubeMesh (s e : Point3) (r : ℝ) (n : ℕ) : TubeMesh :=
  { startRing := ringPoints s r (perp1 (normalize (e - s))) (perp2 (normalize (e - s))) n
    endRing := ringPoints e r (perp1 (normalize (e - s))) (perp2 (normalize (e - s))) n }

/-- A 3DFACE entity: the list of corner points passed to `msp.add_3dface`. -/
def Face := List Point3

/-- Side quads of `create_closed_tube_mesh`: for each `i`, the 4-point face
`(start_points[i], start_points[next_i], end_points[next_i], end_points[i])`. -/
def sideFaces (sp ep : List Point3) (n : ℕ) : List Face :=
  (List.range n).map fun i =>
    [sp.getD i 0, sp.getD ((i + 1) % n) 0, ep.getD ((i + 1) % n) 0, ep.getD i 0]

/-- Start-cap triangle fan (last vertex repeated, as in the source). -/
def startCapFaces (s : Point3) (sp : List Point3) (n : ℕ) : List Face :=
  (List.range n).map fun i =>
    [s, sp.getD i 0, sp.getD ((i + 1) % n) 0, sp.getD ((i + 1) % n) 0]

/-- End-cap triangle fan (last vertex repeated, as in the source). -/
def endCapFaces (e : Point3) (ep : List Point3) (n : ℕ) : List Face :=
  (List.range n).map fun i =>
    [e, ep.getD ((i + 1) % n) 0, ep.getD i 0, ep.getD i 0]

/-- Model of `create_closed_tube_mesh msp ...`: appends the side faces and the
two caps to the modelspace entity list `msp`. -/
def create_closed_tube_mesh (msp : List Face) (s e : Point3) (r : ℝ) (p1 p2 : Point3)
    (n : ℕ) : List Face :=
  msp ++ sideFaces (ringPoints s r p1 p2 n) (ringPoints e r p1 p2 n) n
      ++ startCapFaces s (ringPoints s r p1 p2 n) n
      ++ endCapFaces e (ringPoints e r p1 p2 n) n

/-- Model of the DXF `create_tube_solid`: return (emitting nothing) when the
direction has zero length, otherwise normalize the direction, build the
perpendicular frame and emit the 16-segment closed mesh. -/
def create_tube_solid (msp : List Face) (s e : Point3) (r : ℝ) : List Face :=
  if magnitude (e - s) = 0 then msp
  else
    create_closed_tube_mesh msp s e r
      (perp1 (normalize (e - s))) (perp2 (normalize (e - s))) 16

/-- Semantic grouping of the structural members (the DXF layers). -/
inductive Role
  | vertical
  | horizontalRail
  | cornerBrace
deriving DecidableEq

/-- One straight structural member. -/
structure TubeSpec where
  start_point : Point3
  end_point : Point3
  outer_diameter : ℝ
  role : Role

/-- Structural parameters of the frame (the hard-coded constants of
`create_metal_frame_dxf`, treated as inputs). -/
structure FrameParams where
  verticalHeight : ℝ
  span : ℝ
  tubeDiameter : ℝ
  bottomRailHeight : ℝ
  braceLength : ℝ

/-- Diagonal component of a 45-degree brace: `BRACE_LENGTH / math.sqrt(2)`. -/
def brace_offset (L : ℝ) : ℝ := L / Real.sqrt 2

/-- Left vertical tube: `(0,0,0)` to `(0,0,VERTICAL_HEIGHT)`. -/
def left_vertical (P : FrameParams) : TubeSpec :=
  ⟨⟨0, 0, 0⟩, ⟨0, 0, P.verticalHeight⟩, P.tubeDiameter, Role.vertical⟩

/-- Right vertical tube: `(SPACING,0,0)` to `(SPACING,0,VERTICAL_HEIGHT)`. -/
def right_vertical (P : FrameParams) : TubeSpec :=
  ⟨⟨P.span, 0, 0⟩, ⟨P.span, 0, P.verticalHeight⟩, P.tubeDiameter, Role.vertical⟩

/-- Bottom horizontal tube at `z = BOTTOM_HORIZONTAL_HEIGHT`. -/
def bottom_horizontal (P : FrameParams) : TubeSpec :=
  ⟨⟨0, 0, P.bottomRailHeight⟩, ⟨P.span, 0, P.bottomRailHeight⟩, P.tubeDiameter,
   Role.horizontalRail⟩

/-- Top horizontal tube at `z = TOP_HORIZONTAL_HEIGHT = VERTICAL_HEIGHT`. -/
def top_horizontal (P : FrameParams) : TubeSpec :=
  ⟨⟨0, 0, P.verticalHeight⟩, ⟨P.span, 0, P.verticalHeight⟩, P.tubeDiameter,
   Role.horizontalRail⟩

/-- Left top corner brace. -/
def left_top_brace (P : FrameParams) : TubeSpec :=
  ⟨⟨0, 0, P.verticalHeight - brace_offset P.braceLength⟩,
   ⟨brace_offset P.braceLength, 0, P.verticalHeight⟩, P.tubeDiameter, Role.cornerBrace⟩

/-- Right top corner brace. -/
def right_top_brace (P : FrameParams) : TubeSpec :=
  ⟨⟨P.span, 0, P.verticalHeight - brace_offset P.braceLength⟩,
   ⟨P.span - brace_offset P.braceLength, 0, P.verticalHeight⟩, P.tubeDiameter,
   Role.cornerBrace⟩

/-- Left bottom corner brace. -/
def left_bottom_brace (P : FrameParams) : TubeSpec :=
  ⟨⟨0, 0, P.bottomRailHeight + brace_offset P.braceLength⟩,
   ⟨brace_offset P.braceLength, 0, P.bottomRailHeight⟩, P.tubeDiameter, Role.cornerBrace⟩

/-- Right bottom corner brace. -/
def right_bottom_brace (P : FrameParams) : TubeSpec :=
  ⟨⟨P.span, 0, P.bottomRailHeight + brace_offset P.braceLength⟩,
   ⟨P.span - brace_offset P.braceLength, 0, P.bottomRailHeight⟩, P.tubeDiameter,
   Role.cornerBrace⟩

/-- The eight structural members, in the emission order of
`create_metal_frame_dxf` / `create_metal_frame_step`. -/
def frameMembers (P : FrameParams) : List TubeSpec :=
  [left_vertical P, right_vertical P, bottom_horizontal P, top_horizontal P,
   left_top_brace P, right_top_brace P, left_bottom_brace P, right_bottom_brace P]

/-- Hard-coded constants of `create_metal_frame_dxf` (inches). -/
def defaultParams : FrameParams := ⟨48, 24, 2, 12, 12⟩

/-- Mesh emission of `create_metal_frame_dxf`: each member is passed to
`create_tube_solid` with radius `TUBE_DIAMETER / 2`, accumulating 3DFACE
entities in the modelspace `msp`. -/
def create_metal_frame_dxf (msp : List Face) : List Face :=
  (frameMembers defaultParams).foldl
    (fun acc t => create_tube_solid acc t.start_point t.end_point (t.outer_diameter / 2)) msp

/-- Reflection across the plane `x = S`. -/
def reflectX (S : ℝ) (p : Point3) : Point3 := ⟨S - p.x, p.y, p.z⟩

namespace StepGen

/-- Rotation applied to the cylinder primitive in the STEP export path. -/
inductive TubeRot
  | general (axis : Point3) (angleDeg : ℝ)
  | xFlip180
  | noRot

/-- Branch structure of the rotation selection in the STEP
`create_tube_solid`; `Vector.isEqual(w, tol)` is distance at most `tol`.
Note both comparisons are made against the raw (unnormalized) direction. -/
def cylinderRot (direction : Point3) : TubeRot :=
  if ¬ dist3 direction ⟨0, 0, 1⟩ ≤ 1e-6 ∧ ¬ dist3 direction ⟨0, 0, -1⟩ ≤ 1e-6 then
    TubeRot.general (cross ⟨0, 0, 1⟩ (normalize direction))
      (Real.arccos (dot ⟨0, 0, 1⟩ (normalize direction)) * 180 / Real.pi)
  else if dist3 direction ⟨0, 0, -1⟩ ≤ 1e-6 then TubeRot.xFlip180
  else TubeRot.noRot

/-- Model of the STEP `create_tube_solid`: `None` for a zero-length direction,
otherwise the cylinder data (radius, length, rotation, translation). -/
def create_tube_solid (s e : Point3) (outer_diameter : ℝ) :
    Option (ℝ × ℝ × TubeRot × Point3) :=
  if magnitude (e - s) = 0 then none
  else some (outer_diameter / 2, magnitude (e - s), cylinderRot (e - s), s)

end StepGen

@[simp] theorem add_x (a b : Point3) : (a + b).x = a.x + b.x := rfl

@[simp] theorem add_y (a b : Point3) : (a + b).y = a.y + b.y := rfl

@[simp] theorem add_z (a b : Point3) : (a + b).z = a.z + b.z := rfl

@[simp] theorem sub_x (a b : Point3) : (a - b).x = a.x - b.x := rfl

@[simp] theorem sub_y (a b : Point3) : (a - b).y = a.y - b.y := rfl

@[simp] theorem sub_z (a b : Point3) : (a - b).z = a.z - b.z := rfl

@[simp] theorem smul_x (c : ℝ) (a : Point3) : (c • a).x = c * a.x := rfl

@[simp] theorem smul_y (c : ℝ) (a : Point3) : (c • a).y = c * a.y := rfl

@[simp] theorem smul_z (c : ℝ) (a : Point3) : (c • a).z = c * a.z := rfl

@[simp] theorem zero_x : (0 : Point3).x = 0 := rfl

@[simp] theorem zero_y : (0 : Point3).y = 0 := rfl

@[simp] theorem zero_z : (0 : Point3).z = 0 := rfl

theorem normSq_eq (a : Point3) : normSq a = a.x ^ 2 + a.y ^ 2 + a.z ^ 2 := by
  simp [normSq, dot]; ring

theorem normSq_nonneg (a : Point3) : 0 ≤ normSq a := by
  rw [normSq_eq]; positivity

theorem sq_magnitude (a : Point3) : magnitude a ^ 2 = normSq a :=
  Real.sq_sqrt (normSq_nonneg a)

theorem magnitude_nonneg (a : Point3) : 0 ≤ magnitude a := Real.sqrt_nonneg _

theorem normSq_eq_zero_iff (a : Point3) : normSq a = 0 ↔ a = 0 := by
  rw [normSq_eq]
  constructor
  · intro h
    have hx : a.x = 0 := by nlinarith [sq_nonneg a.x, sq_nonneg a.y, sq_nonneg a.z]
    have hy : a.y = 0 := by nlinarith [sq_nonneg a.x, sq_nonneg a.y, sq_nonneg a.z]
    have hz : a.z = 0 := by nlinarith [sq_nonneg a.x, sq_nonneg a.y, sq_nonneg a.z]
    exact Point3.ext hx hy hz
  · rintro rfl; simp

theorem magnitude_eq_zero_iff (a : Point3) : magnitude a = 0 ↔ a = 0 := by
  rw [magnitude, Real.sqrt_eq_zero (normSq_nonneg a), normSq_eq_zero_iff]

theorem sub_eq_zero_iff (a b : Point3) : a - b = 0 ↔ a = b := by
  constructor
  · intro h
    have hx := congrArg Point3.x h
    have hy := congrArg Point3.y h
    have hz := congrArg Point3.z h
    simp at hx hy hz
    exact Point3.ext (by linarith) (by linarith) (by linarith)
  · rintro rfl; ext <;> simp

theorem magnitude_pos_of_ne (a b : Point3) (h : a ≠ b) : 0 < magnitude (a - b) := by
  rcases lt_or_eq_of_le (magnitude_nonneg (a - b)) with hlt | heq
  · exact hlt
  · exfalso
    exact h ((sub_eq_zero_iff a b).mp ((magnitude_eq_zero_iff (a - b)).mp heq.symm))

theorem normSq_smul (c : ℝ) (v : Point3) : normSq (c • v) = c ^ 2 * normSq v := by
  simp [normSq, dot]; ring

theorem normSq_normalize (v : Point3) (h : normSq v ≠ 0) : normSq (normalize v) = 1 := by
  have hpos : 0 < normSq v := lt_of_le_of_ne (normSq_nonneg v) (Ne.symm h)
  have hm : 0 < magnitude v := Real.sqrt_pos.mpr hpos
  rw [normalize, normSq_smul]
  rw [one_div, inv_pow, sq_magnitude]
  field_simp

theorem dot_comm (a b : Point3) : dot a b = dot b a := by
  simp [dot]; ring

theorem dot_smul_left (c : ℝ) (a b : Point3) : dot (c • a) b = c * dot a b := by
  simp [dot]; ring

theorem dot_smul_right (c : ℝ) (a b : Point3) : dot a (c • b) = c * dot a b := by
  simp [dot]; ring

theorem cross_dot_left (a b : Point3) : dot (cross a b) a = 0 := by
  simp [cross, dot]; ring

theorem dot_cross_right (a b : Point3) : dot b (cross a b) = 0 := by
  simp [cross, dot]; ring

theorem cross_normSq (a b : Point3) :
    normSq (cross a b) = normSq a * normSq b - dot a b ^ 2 := by
  simp [cross, normSq, dot]; ring

theorem perp1_dot_of_lt (d : Point3) (h : |d.z| < 0.99) : dot (perp1 d) d = 0 := by
  rw [perp1, if_pos h, normalize, dot_smul_left]
  have hv : dot (⟨-d.y, d.x, 0⟩ : Point3) d = 0 := by simp [dot]; ring
  rw [hv, mul_zero]

theorem perp1_dot (d : Point3) (h : |d.z| < 0.99 ∨ (d.x = 0 ∧ d.y = 0)) :
    dot (perp1 d) d = 0 := by
  by_cases hz : |d.z| < 0.99
  · exact perp1_dot_of_lt d hz
  · rcases h with h | ⟨hx, _⟩
    · exact absurd h hz
    · rw [perp1, if_neg hz]
      simp [dot, hx]

theorem perp2_dot (d : Point3) : dot (perp2 d) d = 0 := by
  rw [perp2, normalize, dot_smul_left, cross_dot_left, mul_zero]

theorem perp1_dot_perp2 (d : Point3) : dot (perp1 d) (perp2 d) = 0 := by
  rw [perp2, normalize, dot_smul_right, dot_cross_right, mul_zero]

theorem perp1_normSq (d : Point3) (hd : normSq d = 1) : normSq (perp1 d) = 1 := by
  rw [normSq_eq] at hd
  by_cases hz : |d.z| < 0.99
  · rw [perp1, if_pos hz]
    apply normSq_normalize
    have habs : d.z ^ 2 < 0.99 ^ 2 := by
      have h1 : -(0.99 : ℝ) < d.z := (abs_lt.mp hz).1
      have h2 : d.z < 0.99 := (abs_lt.mp hz).2
      nlinarith
    have : normSq (⟨-d.y, d.x, 0⟩ : Point3) = d.y ^ 2 + d.x ^ 2 := by
      rw [normSq_eq]; norm_num
    rw [this]
    nlinarith
  · rw [perp1, if_neg hz]
    rw [normSq_eq]; norm_num

theorem perp2_normSq (d : Point3) (hd : normSq d = 1) : normSq (perp2 d) = 1 := by
  by_cases hz : |d.z| < 0.99
  · rw [perp2]
    apply normSq_normalize
    rw [cross_normSq, hd, perp1_normSq d hd, dot_comm, perp1_dot_of_lt d hz]
    norm_num
  · rw [perp2]
    apply normSq_normalize
    have hp1 : perp1 d = ⟨1, 0, 0⟩ := by rw [perp1, if_neg hz]
    have hcross : cross d (perp1 d) = ⟨0, d.z, -d.y⟩ := by
      rw [hp1]; simp [cross]
    rw [hcross, normSq_eq]
    have habs : (0.99 : ℝ) ≤ |d.z| := le_of_not_lt hz
    have : (0.99 : ℝ) ^ 2 ≤ d.z ^ 2 := by
      rw [← sq_abs d.z]
      exact pow_le_pow_left (by norm_num) habs 2
    nlinarith

theorem normSq_combo (p1 p2 : Point3) (a b : ℝ)
    (h1 : normSq p1 = 1) (h2 : normSq p2 = 1) (h12 : dot p1 p2 = 0) :
    normSq (a • p1 + b • p2) = a ^ 2 + b ^ 2 := by
  simp only [normSq, dot, add_x, add_y, add_z, smul_x, smul_y, smul_z] at h1 h2 h12 ⊢
  linear_combination a ^ 2 * h1 + b ^ 2 * h2 + 2 * a * b * h12

theorem circlePoint_sub (c : Point3) (r : ℝ) (p1 p2 : Point3) (θ : ℝ) :
    circlePoint c r p1 p2 θ - c = r • (Real.cos θ • p1 + Real.sin θ • p2) := by
  ext <;> simp [circlePoint]

theorem circlePoint_dist (c : Point3) (r : ℝ) (hr : 0 ≤ r) (p1 p2 : Point3)
    (h1 : normSq p1 = 1) (h2 : normSq p2 = 1) (h12 : dot p1 p2 = 0) (θ : ℝ) :
    dist3 (circlePoint c r p1 p2 θ) c = r := by
  rw [dist3, circlePoint_sub, magnitude, normSq_smul,
    normSq_combo p1 p2 _ _ h1 h2 h12, Real.cos_sq_add_sin_sq, mul_one,
    Real.sqrt_sq hr]

theorem circlePoint_planar (c w : Point3) (r : ℝ) (p1 p2 : Point3)
    (h1 : dot p1 w = 0) (h2 : dot p2 w = 0) (θ : ℝ) :
    dot (circlePoint c r p1 p2 θ - c) w = 0 := by
  rw [circlePoint_sub]
  simp only [dot, add_x, add_y, add_z, smul_x, smul_y, smul_z] at h1 h2 ⊢
  linear_combination (r * Real.cos θ) * h1 + (r * Real.sin θ) * h2

theorem ringPoints_length (c : Point3) (r : ℝ) (p1 p2 : Point3) (n : ℕ) :
    (ringPoints c r p1 p2 n).length = n := by
  rw [ringPoints, List.length_map, List.length_range]

theorem mem_ringPoints (c : Point3) (r : ℝ) (p1 p2 : Point3) (n : ℕ) (p : Point3)
    (hp : p ∈ ringPoints c r p1 p2 n) :
    ∃ θ : ℝ, p = circlePoint c r p1 p2 θ := by
  simp only [ringPoints, List.mem_map, List.mem_range] at hp
  obtain ⟨i, _, rfl⟩ := hp
  exact ⟨2 * Real.pi * i / n, rfl⟩

theorem off_sq (L : ℝ) : brace_offset L ^ 2 = L ^ 2 / 2 := by
  rw [brace_offset, div_pow, Real.sq_sqrt (by norm_num : (0 : ℝ) ≤ 2)]

theorem dist3_brace (a b : Point3) (L : ℝ) (hL : 0 ≤ L)
    (hx : (a.x - b.x) ^ 2 = L ^ 2 / 2) (hy : a.y = b.y)
    (hz : (a.z - b.z) ^ 2 = L ^ 2 / 2) :
    dist3 a b = L := by
  have h : normSq (a - b) = L ^ 2 := by
    rw [normSq_eq, sub_x, sub_y, sub_z, hy, hx, hz]
    ring
  rw [dist3, magnitude, h, Real.sqrt_sq hL]

theorem brace_lengths (P : FrameParams) (hL : 0 ≤ P.braceLength) :
    dist3 (left_top_brace P).start_point (left_top_brace P).end_point = P.braceLength ∧
    dist3 (right_top_brace P).start_point (right_top_brace P).end_point = P.braceLength ∧
    dist3 (left_bottom_brace P).start_point (left_bottom_brace P).end_point = P.braceLength ∧
    dist3 (right_bottom_brace P).start_point (right_bottom_brace P).end_point
      = P.braceLength := by
  refine ⟨?_, ?_, ?_, ?_⟩
  · exact dist3_brace _ _ _ hL
      (by show (0 - brace_offset P.braceLength) ^ 2 = _; rw [← off_sq]; ring) rfl
      (by show (P.verticalHeight - brace_offset P.braceLength - P.verticalHeight) ^ 2 = _
          rw [← off_sq]; ring)
  · exact dist3_brace _ _ _ hL
      (by show (P.span - (P.span - brace_offset P.braceLength)) ^ 2 = _
          rw [← off_sq]; ring) rfl
      (by show (P.verticalHeight - brace_offset P.braceLength - P.verticalHeight) ^ 2 = _
          rw [← off_sq]; ring)
  · exact dist3_brace _ _ _ hL
      (by show (0 - brace_offset P.braceLength) ^ 2 = _; rw [← off_sq]; ring) rfl
      (by show (P.bottomRailHeight + brace_offset P.braceLength - P.bottomRailHeight) ^ 2 = _
          rw [← off_sq]; ring)
  · exact dist3_brace _ _ _ hL
      (by show (P.span - (P.span - brace_offset P.braceLength)) ^ 2 = _
          rw [← off_sq]; ring) rfl
      (by show (P.bottomRailHeight + brace_offset P.braceLength - P.bottomRailHeight) ^ 2 = _
          rw [← off_sq]; ring)

/-- C1: with parameters `verticalHeight=48, span=24, mainDiameter=2,
bottomRailHeight=12, braceLength=12`, the frame builder produces exactly four
main tube members (two vertical, two rail) with endpoint pairs
`(0,0,0)-(0,0,48)`, `(24,0,0)-(24,0,48)`, `(0,0,12)-(24,0,12)`,
`(0,0,48)-(24,0,48)`, plus four corner braces each of Euclidean length 12,
each top brace's horizontal offset from its vertical tube being `12/sqrt 2`. -/
theorem default_frame_geometry :
    (frameMembers defaultParams).map TubeSpec.role =
      [Role.vertical, Role.vertical, Role.horizontalRail, Role.horizontalRail,
       Role.cornerBrace, Role.cornerBrace, Role.cornerBrace, Role.cornerBrace] ∧
    ((frameMembers defaultParams).take 4).map
        (fun t => (t.start_point, t.end_point)) =
      [(⟨0, 0, 0⟩, ⟨0, 0, 48⟩), (⟨24, 0, 0⟩, ⟨24, 0, 48⟩),
       (⟨0, 0, 12⟩, ⟨24, 0, 12⟩), (⟨0, 0, 48⟩, ⟨24, 0, 48⟩)] ∧
    dist3 (left_top_brace defaultParams).start_point
        (left_top_brace defaultParams).end_point = 12 ∧
    dist3 (right_top_brace defaultParams).start_point
        (right_top_brace defaultParams).end_point = 12 ∧
    dist3 (left_bottom_brace defaultParams).start_point
        (left_bottom_brace defaultParams).end_point = 12 ∧
    dist3 (right_bottom_brace defaultParams).start_point
        (right_bottom_brace defaultParams).end_point = 12 ∧
    |(left_top_brace defaultParams).end_point.x
        - (left_vertical defaultParams).start_point.x| = 12 / Real.sqrt 2 ∧
    |(right_top_brace defaultParams).end_point.x
        - (right_vertical defaultParams).start_point.x| = 12 / Real.sqrt 2 := by
  obtain ⟨h1, h2, h3, h4⟩ := brace_lengths defaultParams (by norm_num [defaultParams])
  refine ⟨rfl, rfl, h1, h2, h3, h4, ?_, ?_⟩
  · show |brace_offset 12 - 0| = 12 / Real.sqrt 2
    rw [sub_zero, brace_offset, abs_of_nonneg (by positivity)]
  · show |24 - brace_offset 12 - 24| = 12 / Real.sqrt 2
    rw [show (24 : ℝ) - brace_offset 12 - 24 = -brace_offset 12 by ring, abs_neg,
      brace_offset, abs_of_nonneg (by positivity)]

/-- C4: for every brace length `L > 0` and every one of the four corners, the
Euclidean distance between the brace's two computed endpoints equals `L`. -/
theorem brace_length_every_corner (P : FrameParams) (hL : 0 < P.braceLength) :
    dist3 (left_top_brace P).start_point (left_top_brace P).end_point = P.braceLength ∧
    dist3 (right_top_brace P).start_point (right_top_brace P).end_point = P.braceLength ∧
    dist3 (left_bottom_brace P).start_point (left_bottom_brace P).end_point = P.braceLength ∧
    dist3 (right_bottom_brace P).start_point (right_bottom_brace P).end_point
      = P.braceLength :=
  brace_lengths P hL.le

/-- Witness for C4 at the default parameters. -/
theorem brace_length_every_corner_witness :
    0 < defaultParams.braceLength ∧
    (dist3 (left_top_brace defaultParams).start_point
        (left_top_brace defaultParams).end_point = defaultParams.braceLength ∧
     dist3 (right_top_brace defaultParams).start_point
        (right_top_brace defaultParams).end_point = defaultParams.braceLength ∧
     dist3 (left_bottom_brace defaultParams).start_point
        (left_bottom_brace defaultParams).end_point = defaultParams.braceLength ∧
     dist3 (right_bottom_brace defaultParams).start_point
        (right_bottom_brace defaultParams).end_point = defaultParams.braceLength) :=
  ⟨by norm_num [defaultParams],
   brace_length_every_corner defaultParams (by norm_num [defaultParams])⟩

/-- C8: with default parameters, reflecting `x ↦ span - x` maps the left
vertical tube's endpoints onto the right vertical tube's endpoints, and each
left brace's endpoints onto the corresponding right brace's endpoints. -/
theorem default_frame_mirror :
    reflectX defaultParams.span (left_vertical defaultParams).start_point
        = (right_vertical defaultParams).start_point ∧
    reflectX defaultParams.span (left_vertical defaultParams).end_point
        = (right_vertical defaultParams).end_point ∧
    reflectX defaultParams.span (left_top_brace defaultParams).start_point
        = (right_top_brace defaultParams).start_point ∧
    reflectX defaultParams.span (left_top_brace defaultParams).end_point
        = (right_top_brace defaultParams).end_point ∧
    reflectX defaultParams.span (left_bottom_brace defaultParams).start_point
        = (right_bottom_brace defaultParams).start_point ∧
    reflectX defaultParams.span (left_bottom_brace defaultParams).end_point
        = (right_bottom_brace defaultParams).end_point := by
  refine ⟨?_, ?_, ?_, ?_, ?_, ?_⟩ <;>
    ext <;>
      simp [reflectX, left_vertical, right_vertical, left_top_brace, right_top_brace,
        left_bottom_brace, right_bottom_brace, defaultParams]

/-- C10: every structural member of the frame has both endpoints with
y-coordinate exactly 0, for every choice of the parameters. -/
theorem members_y_eq_zero (P : FrameParams) (t : TubeSpec)
    (ht : t ∈ frameMembers P) : t.start_point.y = 0 ∧ t.end_point.y = 0 := by
  simp only [frameMembers, List.mem_cons, List.not_mem_nil, or_false] at ht
  rcases ht with rfl | rfl | rfl | rfl | rfl | rfl | rfl | rfl <;> exact ⟨rfl, rfl⟩

theorem magnitude_mk (u v w : ℝ) :
    magnitude ⟨u, v, w⟩ = Real.sqrt (u ^ 2 + v ^ 2 + w ^ 2) := by
  rw [magnitude, normSq_eq]

/-- C3 (amended): the cross-section frame satisfies `p2 · d = 0`,
`p1 · p2 = 0` and `|p1| = |p2| = 1` for every unit axis `d`; additionally
`p1 · d = 0` whenever `|d.z| < 0.99` or the axis is exactly vertical
(`d.x = d.y = 0`) — but not for nearly-vertical tilted axes, where the
`else` branch returns `(1,0,0)` with `p1 · d = d.x ≠ 0`. -/
theorem perp_frame_orthonormal (d : Point3) (hd : normSq d = 1)
    (h : |d.z| < 0.99 ∨ (d.x = 0 ∧ d.y = 0)) :
    dot (perp1 d) d = 0 ∧ dot (perp2 d) d = 0 ∧ dot (perp1 d) (perp2 d) = 0 ∧
    normSq (perp1 d) = 1 ∧ normSq (perp2 d) = 1 :=
  ⟨perp1_dot d h, perp2_dot d, perp1_dot_perp2 d, perp1_normSq d hd, perp2_normSq d hd⟩

/-- Witness for C3 at the unit direction (3/5, 0, 4/5). -/
theorem perp_frame_orthonormal_witness :
    normSq ⟨3 / 5, 0, 4 / 5⟩ = 1 ∧ |(Point3.mk (3 / 5) 0 (4 / 5)).z| < 0.99 ∧
    (dot (perp1 ⟨3 / 5, 0, 4 / 5⟩) ⟨3 / 5, 0, 4 / 5⟩ = 0 ∧
     dot (perp2 ⟨3 / 5, 0, 4 / 5⟩) ⟨3 / 5, 0, 4 / 5⟩ = 0 ∧
     dot (perp1 ⟨3 / 5, 0, 4 / 5⟩) (perp2 ⟨3 / 5, 0, 4 / 5⟩) = 0 ∧
     normSq (perp1 ⟨3 / 5, 0, 4 / 5⟩) = 1 ∧ normSq (perp2 ⟨3 / 5, 0, 4 / 5⟩) = 1) :=
  ⟨by rw [normSq_eq]; norm_num,
   by rw [show (Point3.mk (3 / 5 : ℝ) 0 (4 / 5)).z = 4 / 5 from rfl,
        abs_of_nonneg (by norm_num)]; norm_num,
   perp_frame_orthonormal _ (by rw [normSq_eq]; norm_num)
     (Or.inl (by rw [show (Point3.mk (3 / 5 : ℝ) 0 (4 / 5)).z = 4 / 5 from rfl,
        abs_of_nonneg (by norm_num)]; norm_num))⟩

/-- C3 counterexample: the unit axis direction (15/113, 0, 112/113) is in the
nearly-vertical branch (`|d.z| = 112/113 ≥ 0.99`), where `p1 = (1,0,0)` and
`p1 · d = 15/113`, far above the claimed 1e-9 tolerance, so `(d, p1, p2)` is
not an orthonormal frame there. -/
theorem perp_frame_orthonormal_cex :
    normSq ⟨15 / 113, 0, 112 / 113⟩ = 1 ∧
    dot (perp1 ⟨15 / 113, 0, 112 / 113⟩) ⟨15 / 113, 0, 112 / 113⟩ = 15 / 113 ∧
    ¬ |dot (perp1 ⟨15 / 113, 0, 112 / 113⟩) ⟨15 / 113, 0, 112 / 113⟩| ≤ 1e-9 := by
  have hz : ¬ |(Point3.mk (15 / 113 : ℝ) 0 (112 / 113)).z| < 0.99 := by
    rw [show (Point3.mk (15 / 113 : ℝ) 0 (112 / 113)).z = 112 / 113 from rfl,
      abs_of_nonneg (by norm_num)]
    norm_num
  have hp : perp1 ⟨15 / 113, 0, 112 / 113⟩ = ⟨1, 0, 0⟩ := by rw [perp1, if_neg hz]
  have hdot : dot (perp1 ⟨15 / 113, 0, 112 / 113⟩)
      (⟨15 / 113, 0, 112 / 113⟩ : Point3) = 15 / 113 := by
    rw [hp]; simp [dot]
  refine ⟨by rw [normSq_eq]; norm_num, hdot, ?_⟩
  rw [hdot, abs_of_nonneg (by norm_num)]
  norm_num

/-- C2 (amended): for every tube with `start ≠ end`, positive outer diameter
and `segmentCount ≥ 3`, both rings have exactly `segmentCount` points and
every ring point is at distance `outerDiameter/2` from its ring's center;
the rings lie in the plane perpendicular to `end - start` whenever the
normalized direction satisfies `|d.z| < 0.99` or is exactly vertical, but not
in general (nearly-vertical tilted axes give tilted rings). -/
theorem buildTubeMesh_rings (s e : Point3) (dia : ℝ) (n : ℕ)
    (hse : s ≠ e) (hdia : 0 < dia) (hn : 3 ≤ n) :
    (buildTubeMesh s e (dia / 2) n).startRing.length = n ∧
    (buildTubeMesh s e (dia / 2) n).endRing.length = n ∧
    (∀ p ∈ (buildTubeMesh s e (dia / 2) n).startRing, dist3 p s = dia / 2) ∧
    (∀ p ∈ (buildTubeMesh s e (dia / 2) n).endRing, dist3 p e = dia / 2) ∧
    ((|(normalize (e - s)).z| < 0.99 ∨
        ((normalize (e - s)).x = 0 ∧ (normalize (e - s)).y = 0)) →
      (∀ p ∈ (buildTubeMesh s e (dia / 2) n).startRing, dot (p - s) (e - s) = 0) ∧
      (∀ p ∈ (buildTubeMesh s e (dia / 2) n).endRing, dot (p - e) (e - s) = 0)) := by
  have hm : 0 < magnitude (e - s) := magnitude_pos_of_ne e s (Ne.symm hse)
  have hnormSq : normSq (e - s) ≠ 0 := by
    rw [← sq_magnitude]
    exact pow_ne_zero 2 (ne_of_gt hm)
  have hd : normSq (normalize (e - s)) = 1 := normSq_normalize _ hnormSq
  have key : ∀ v : Point3, dot v (normalize (e - s)) = 0 → dot v (e - s) = 0 := by
    intro v hv
    rw [normalize, dot_smul_right] at hv
    rcases mul_eq_zero.mp hv with h | h
    · exact absurd h (one_div_ne_zero (ne_of_gt hm))
    · exact h
  simp only [buildTubeMesh]
  refine ⟨ringPoints_length _ _ _ _ _, ringPoints_length _ _ _ _ _, ?_, ?_, ?_⟩
  · intro p hp
    obtain ⟨θ, rfl⟩ := mem_ringPoints _ _ _ _ _ _ hp
    exact circlePoint_dist s (dia / 2) (by positivity) _ _
      (perp1_normSq _ hd) (perp2_normSq _ hd) (perp1_dot_perp2 _) θ
  · intro p hp
    obtain ⟨θ, rfl⟩ := mem_ringPoints _ _ _ _ _ _ hp
    exact circlePoint_dist e (dia / 2) (by positivity) _ _
      (perp1_normSq _ hd) (perp2_normSq _ hd) (perp1_dot_perp2 _) θ
  · intro hbranch
    have h1 : dot (perp1 (normalize (e - s))) (e - s) = 0 :=
      key _ (perp1_dot _ hbranch)
    have h2 : dot (perp2 (normalize (e - s))) (e - s) = 0 := key _ (perp2_dot _)
    constructor
    · intro p hp
      obtain ⟨θ, rfl⟩ := mem_ringPoints _ _ _ _ _ _ hp
      exact circlePoint_planar _ _ _ _ _ h1 h2 θ
    · intro p hp
      obtain ⟨θ, rfl⟩ := mem_ringPoints _ _ _ _ _ _ hp
      exact circlePoint_planar _ _ _ _ _ h1 h2 θ

theorem perp1_tilted : perp1 ⟨15 / 113, 0, 112 / 113⟩ = ⟨1, 0, 0⟩ := by
  rw [perp1, if_neg]
  rw [show (Point3.mk (15 / 113 : ℝ) 0 (112 / 113)).z = 112 / 113 from rfl,
    abs_of_nonneg (by norm_num)]
  norm_num

/-- Witness for C2: the default left vertical tube, diameter 2, 16 segments. -/
theorem buildTubeMesh_rings_witness :
    ((⟨0, 0, 0⟩ : Point3) ≠ ⟨0, 0, 48⟩) ∧ (0 : ℝ) < 2 ∧ (3 : ℕ) ≤ 16 ∧
    ((buildTubeMesh ⟨0, 0, 0⟩ ⟨0, 0, 48⟩ (2 / 2) 16).startRing.length = 16 ∧
     (buildTubeMesh ⟨0, 0, 0⟩ ⟨0, 0, 48⟩ (2 / 2) 16).endRing.length = 16 ∧
     (∀ p ∈ (buildTubeMesh ⟨0, 0, 0⟩ ⟨0, 0, 48⟩ (2 / 2) 16).startRing,
        dist3 p ⟨0, 0, 0⟩ = 2 / 2) ∧
     (∀ p ∈ (buildTubeMesh ⟨0, 0, 0⟩ ⟨0, 0, 48⟩ (2 / 2) 16).endRing,
        dist3 p ⟨0, 0, 48⟩ = 2 / 2) ∧
     ((|(normalize ((⟨0, 0, 48⟩ : Point3) - ⟨0, 0, 0⟩)).z| < 0.99 ∨
         ((normalize ((⟨0, 0, 48⟩ : Point3) - ⟨0, 0, 0⟩)).x = 0 ∧
          (normalize ((⟨0, 0, 48⟩ : Point3) - ⟨0, 0, 0⟩)).y = 0)) →
       (∀ p ∈ (buildTubeMesh ⟨0, 0, 0⟩ ⟨0, 0, 48⟩ (2 / 2) 16).startRing,
          dot (p - ⟨0, 0, 0⟩) ((⟨0, 0, 48⟩ : Point3) - ⟨0, 0, 0⟩) = 0) ∧
       (∀ p ∈ (buildTubeMesh ⟨0, 0, 0⟩ ⟨0, 0, 48⟩ (2 / 2) 16).endRing,
          dot (p - ⟨0, 0, 48⟩) ((⟨0, 0, 48⟩ : Point3) - ⟨0, 0, 0⟩) = 0))) := by
  have hne : (⟨0, 0, 0⟩ : Point3) ≠ ⟨0, 0, 48⟩ := by
    intro h
    have hz := congrArg Point3.z h
    norm_num at hz
  exact ⟨hne, by norm_num, by norm_num,
    buildTubeMesh_rings _ _ _ _ hne (by norm_num) (by norm_num)⟩

/-- C2 counterexample: for the tube from (0,0,0) to (15,0,112), whose
normalized direction (15/113, 0, 112/113) falls in the nearly-vertical branch,
the first start-ring point (1,0,0) has offset with dot product 15 ≠ 0 against
the axis: the start ring does not lie in the plane perpendicular to
`end - start`. -/
theorem buildTubeMesh_rings_cex :
    ((⟨0, 0, 0⟩ : Point3) ≠ ⟨15, 0, 112⟩) ∧ (0 : ℝ) < 2 ∧ (3 : ℕ) ≤ 16 ∧
    ¬ (∀ p ∈ (buildTubeMesh ⟨0, 0, 0⟩ ⟨15, 0, 112⟩ (2 / 2) 16).startRing,
        dot (p - ⟨0, 0, 0⟩) ((⟨15, 0, 112⟩ : Point3) - ⟨0, 0, 0⟩) = 0) := by
  have hsub : (⟨15, 0, 112⟩ : Point3) - ⟨0, 0, 0⟩ = ⟨15, 0, 112⟩ := by ext <;> simp
  have hmag : magnitude ((⟨15, 0, 112⟩ : Point3) - ⟨0, 0, 0⟩) = 113 := by
    rw [hsub, magnitude_mk, show (15 : ℝ) ^ 2 + 0 ^ 2 + 112 ^ 2 = 113 ^ 2 by norm_num,
      Real.sqrt_sq (by norm_num)]
  have hnorm : normalize ((⟨15, 0, 112⟩ : Point3) - ⟨0, 0, 0⟩)
      = ⟨15 / 113, 0, 112 / 113⟩ := by
    rw [normalize, hmag, hsub]
    ext <;> simp <;> norm_num
  refine ⟨?_, by norm_num, by norm_num, ?_⟩
  · intro h
    have hx := congrArg Point3.x h
    norm_num at hx
  · intro hall
    have hp0 : (⟨1, 0, 0⟩ : Point3)
        ∈ (buildTubeMesh ⟨0, 0, 0⟩ ⟨15, 0, 112⟩ (2 / 2) 16).startRing := by
      simp only [buildTubeMesh, ringPoints, List.mem_map, List.mem_range]
      refine ⟨0, by norm_num, ?_⟩
      rw [hnorm, perp1_tilted, Nat.cast_zero, mul_zero, zero_div, circlePoint,
        Real.cos_zero, Real.sin_zero]
      ext <;> simp
    have hc := hall _ hp0
    norm_num [dot] at hc

/-- C5: a tube-construction call with `start == end` returns without emitting
any mesh (DXF path: the modelspace is unchanged) or solid (STEP path: `None`);
the zero-length guard runs before the direction is normalized. -/
theorem zero_length_tube_skipped (msp : List Face) (s : Point3) (r dia : ℝ) :
    create_tube_solid msp s s r = msp ∧ StepGen.create_tube_solid s s dia = none := by
  have hm : magnitude (s - s) = 0 := by
    rw [magnitude_eq_zero_iff]
    exact (sub_eq_zero_iff s s).mpr rfl
  exact ⟨by rw [create_tube_solid, if_pos hm],
    by rw [StepGen.create_tube_solid, if_pos hm]⟩

/-- C6 (amended): the tube construction performs no validation of the outer
diameter: for any non-positive diameter and distinct endpoints the DXF path
still emits the full 48-face mesh and the STEP path still returns a cylinder,
rather than rejecting with an InvalidParameter error. -/
theorem diameter_not_validated (msp : List Face) (s e : Point3) (dia : ℝ)
    (hse : s ≠ e) (hdia : dia ≤ 0) :
    (create_tube_solid msp s e (dia / 2)).length = msp.length + 48 ∧
    (StepGen.create_tube_solid s e dia).isSome = true := by
  have hm : magnitude (e - s) ≠ 0 := ne_of_gt (magnitude_pos_of_ne e s (Ne.symm hse))
  constructor
  · rw [create_tube_solid, if_neg hm, create_closed_tube_mesh]
    simp [sideFaces, startCapFaces, endCapFaces, ringPoints]
  · rw [StepGen.create_tube_solid, if_neg hm]
    rfl

/-- Witness for C6 at diameter 0 on a unit-length tube. -/
theorem diameter_not_validated_witness :
    ((⟨0, 0, 0⟩ : Point3) ≠ ⟨0, 0, 1⟩) ∧ ((0 : ℝ) ≤ 0) ∧
    ((create_tube_solid [] ⟨0, 0, 0⟩ ⟨0, 0, 1⟩ (0 / 2)).length
        = List.length ([] : List Face) + 48 ∧
     (StepGen.create_tube_solid ⟨0, 0, 0⟩ ⟨0, 0, 1⟩ 0).isSome = true) := by
  have hne : (⟨0, 0, 0⟩ : Point3) ≠ ⟨0, 0, 1⟩ := by
    intro h
    have hz := congrArg Point3.z h
    norm_num at hz
  exact ⟨hne, le_refl 0, diameter_not_validated [] _ _ 0 hne (le_refl 0)⟩

/-- C6 counterexample: with outer diameter 0 (a non-positive diameter) and a
unit-length vertical tube, the DXF path emits a nonempty mesh and the STEP
path returns a cylinder: the input is not rejected with an error. -/
theorem diameter_not_validated_cex :
    create_tube_solid [] ⟨0, 0, 0⟩ ⟨0, 0, 1⟩ (0 / 2) ≠ ([] : List Face) ∧
    StepGen.create_tube_solid ⟨0, 0, 0⟩ ⟨0, 0, 1⟩ 0 ≠ none := by
  have hsub : (⟨0, 0, 1⟩ : Point3) - ⟨0, 0, 0⟩ = ⟨0, 0, 1⟩ := by ext <;> simp
  have hm : magnitude ((⟨0, 0, 1⟩ : Point3) - ⟨0, 0, 0⟩) ≠ 0 := by
    rw [hsub, magnitude_mk, show (0 : ℝ) ^ 2 + 0 ^ 2 + 1 ^ 2 = 1 by norm_num,
      Real.sqrt_one]
    norm_num
  constructor
  · intro h
    have hlen := congrArg List.length h
    rw [create_tube_solid, if_neg hm, create_closed_tube_mesh] at hlen
    simp [sideFaces, startCapFaces, endCapFaces, ringPoints] at hlen
  · rw [StepGen.create_tube_solid, if_neg hm]
    exact Option.some_ne_none _

/-- C7 (amended): in the STEP export path, when the raw direction vector is
not within 1e-6 of either (0,0,1) or (0,0,-1) the rotation is computed as
axis = (0,0,1) × normalize d and angle = acos((0,0,1) · normalize d); the
explicit 180-degree-about-X special case applies exactly when the raw
(unnormalized) direction is within 1e-6 of (0,0,-1) — not whenever the
normalized direction is close to (0,0,-1). -/
theorem cylinder_rotation_branches (dir : Point3) :
    (¬ dist3 dir ⟨0, 0, 1⟩ ≤ 1e-6 → ¬ dist3 dir ⟨0, 0, -1⟩ ≤ 1e-6 →
      StepGen.cylinderRot dir = StepGen.TubeRot.general
        (cross ⟨0, 0, 1⟩ (normalize dir))
        (Real.arccos (dot ⟨0, 0, 1⟩ (normalize dir)) * 180 / Real.pi)) ∧
    (dist3 dir ⟨0, 0, -1⟩ ≤ 1e-6 →
      StepGen.cylinderRot dir = StepGen.TubeRot.xFlip180) := by
  constructor
  · intro h1 h2
    rw [StepGen.cylinderRot, if_pos ⟨h1, h2⟩]
  · intro hb
    rw [StepGen.cylinderRot, if_neg (fun hc => hc.2 hb), if_pos hb]

/-- Witness for C7: a horizontal direction (general branch) and the
unit-length downward direction (special-case branch). -/
theorem cylinder_rotation_branches_witness :
    StepGen.cylinderRot ⟨1, 0, 0⟩ = StepGen.TubeRot.general
      (cross ⟨0, 0, 1⟩ (normalize ⟨1, 0, 0⟩))
      (Real.arccos (dot ⟨0, 0, 1⟩ (normalize ⟨1, 0, 0⟩)) * 180 / Real.pi) ∧
    StepGen.cylinderRot ⟨0, 0, -1⟩ = StepGen.TubeRot.xFlip180 := by
  have hs2 : (1 : ℝ) ≤ Real.sqrt 2 := by
    rw [show (1 : ℝ) = Real.sqrt 1 from (Real.sqrt_one).symm]
    exact Real.sqrt_le_sqrt (by norm_num)
  have hd1 : dist3 (⟨1, 0, 0⟩ : Point3) ⟨0, 0, 1⟩ = Real.sqrt 2 := by
    rw [dist3, show (⟨1, 0, 0⟩ : Point3) - ⟨0, 0, 1⟩ = ⟨1, 0, -1⟩ by ext <;> norm_num,
      magnitude_mk]
    norm_num
  have hd2 : dist3 (⟨1, 0, 0⟩ : Point3) ⟨0, 0, -1⟩ = Real.sqrt 2 := by
    rw [dist3, show (⟨1, 0, 0⟩ : Point3) - ⟨0, 0, -1⟩ = ⟨1, 0, 1⟩ by ext <;> norm_num,
      magnitude_mk]
    norm_num
  have hd3 : dist3 (⟨0, 0, -1⟩ : Point3) ⟨0, 0, -1⟩ = 0 := by
    rw [dist3, show (⟨0, 0, -1⟩ : Point3) - ⟨0, 0, -1⟩ = ⟨0, 0, 0⟩ by ext <;> norm_num,
      magnitude_mk]
    norm_num
  exact ⟨(cylinder_rotation_branches ⟨1, 0, 0⟩).1
      (by rw [hd1]; intro h; nlinarith) (by rw [hd2]; intro h; nlinarith),
    (cylinder_rotation_branches ⟨0, 0, -1⟩).2 (by rw [hd3]; norm_num)⟩

/-- C7 counterexample: for the tube from (0,0,0) down to (0,0,-2) the
normalized direction is exactly -(0,0,1), yet the code takes the general
branch (the raw direction (0,0,-2) is not within 1e-6 of (0,0,-1)), producing
a degenerate zero rotation axis instead of the 180-degree-about-X special
case. -/
theorem downward_tube_rotation_cex :
    normalize ((⟨0, 0, -2⟩ : Point3) - ⟨0, 0, 0⟩) = ⟨0, 0, -1⟩ ∧
    StepGen.cylinderRot ((⟨0, 0, -2⟩ : Point3) - ⟨0, 0, 0⟩)
      = StepGen.TubeRot.general ⟨0, 0, 0⟩ 180 ∧
    StepGen.TubeRot.general ⟨0, 0, 0⟩ 180 ≠ StepGen.TubeRot.xFlip180 := by
  have hsub : (⟨0, 0, -2⟩ : Point3) - ⟨0, 0, 0⟩ = ⟨0, 0, -2⟩ := by ext <;> simp
  have hmag : magnitude ((⟨0, 0, -2⟩ : Point3) - ⟨0, 0, 0⟩) = 2 := by
    rw [hsub, magnitude_mk, show (0 : ℝ) ^ 2 + 0 ^ 2 + (-2) ^ 2 = 2 ^ 2 by norm_num,
      Real.sqrt_sq (by norm_num)]
  have hnorm : normalize ((⟨0, 0, -2⟩ : Point3) - ⟨0, 0, 0⟩) = ⟨0, 0, -1⟩ := by
    rw [normalize, hmag, hsub]
    ext <;> simp
  have hd1 : dist3 ((⟨0, 0, -2⟩ : Point3) - ⟨0, 0, 0⟩) ⟨0, 0, 1⟩ = 3 := by
    rw [hsub, dist3, show (⟨0, 0, -2⟩ : Point3) - ⟨0, 0, 1⟩ = ⟨0, 0, -3⟩ by
        ext <;> norm_num,
      magnitude_mk, show (0 : ℝ) ^ 2 + 0 ^ 2 + (-3) ^ 2 = 3 ^ 2 by norm_num,
      Real.sqrt_sq (by norm_num)]
  have hd2 : dist3 ((⟨0, 0, -2⟩ : Point3) - ⟨0, 0, 0⟩) ⟨0, 0, -1⟩ = 1 := by
    rw [hsub, dist3, show (⟨0, 0, -2⟩ : Point3) - ⟨0, 0, -1⟩ = ⟨0, 0, -1⟩ by
        ext <;> norm_num,
      magnitude_mk, show (0 : ℝ) ^ 2 + 0 ^ 2 + (-1) ^ 2 = 1 ^ 2 by norm_num,
      Real.sqrt_sq (by norm_num)]
  refine ⟨hnorm, ?_, fun h => StepGen.TubeRot.noConfusion h⟩
  rw [StepGen.cylinderRot,
    if_pos ⟨by rw [hd1]; norm_num, by rw [hd2]; norm_num⟩, hnorm]
  congr 1
  · ext <;> simp [cross]
  · rw [show dot (⟨0, 0, 1⟩ : Point3) ⟨0, 0, -1⟩ = -1 by norm_num [dot],
      Real.arccos_neg_one, mul_comm Real.pi 180, mul_div_assoc,
      div_self Real.pi_ne_zero, mul_one]

theorem create_tube_solid_append (msp : List Face) (s e : Point3) (r : ℝ) :
    create_tube_solid msp s e r = msp ++ create_tube_solid [] s e r := by
  rw [create_tube_solid, create_tube_solid]
  by_cases h : magnitude (e - s) = 0
  · rw [if_pos h, if_pos h, List.append_nil]
  · rw [if_neg h, if_neg h, create_closed_tube_mesh, create_closed_tube_mesh]
    simp [List.append_assoc]

theorem foldl_emit_append (l : List TubeSpec) :
    ∀ msp : List Face,
      l.foldl (fun acc t => create_tube_solid acc t.start_point t.end_point
        (t.outer_diameter / 2)) msp
      = msp ++ l.foldl (fun acc t => create_tube_solid acc t.start_point t.end_point
        (t.outer_diameter / 2)) [] := by
  induction l with
  | nil => intro msp; simp
  | cons t l ih =>
    intro msp
    rw [List.foldl_cons, List.foldl_cons]
    rw [ih (create_tube_solid msp t.start_point t.end_point (t.outer_diameter / 2))]
    rw [ih (create_tube_solid [] t.start_point t.end_point (t.outer_diameter / 2))]
    rw [create_tube_solid_append msp, List.append_assoc]

/-- C9: the frame emission appends a batch of entities that is independent of
any pre-existing modelspace state, so two calls with the identical (constant)
parameters emit identical coordinate batches: the computation uses no hidden
global, random, or cross-invocation state. -/
theorem frame_emission_deterministic (msp1 msp2 : List Face) :
    create_metal_frame_dxf msp1 = msp1 ++ create_metal_frame_dxf [] ∧
    (create_metal_frame_dxf msp1).drop msp1.length
      = (create_metal_frame_dxf msp2).drop msp2.length := by
  have h := foldl_emit_append (frameMembers defaultParams)
  constructor
  · simp only [create_metal_frame_dxf]
    exact h msp1
  · simp only [create_metal_frame_dxf]
    rw [h msp1, h msp2, List.drop_left, List.drop_left]

/-- Witness for C10: the left vertical tube of the default frame. -/
theorem members_y_eq_zero_witness :
    (left_vertical defaultParams ∈ frameMembers defaultParams) ∧
    ((left_vertical defaultParams).start_point.y = 0 ∧
      (left_vertical defaultParams).end_point.y = 0) :=
  ⟨by rw [frameMembers]; exact List.mem_cons_self _ _,
   members_y_eq_zero defaultParams _ (by rw [frameMembers]; exact List.mem_cons_self _ _)⟩

end MetalFrame
